import Mathlib

/-!
Verification of the Lead Intake & Validation flow of the AC Maintenance
Service backend (`src/main.py`, `src/schemas.py`).

The embedding models:
* inbound JSON payloads as association lists of `JsonValue`s;
* the pydantic request model `LeadRequest` (main.py, lines 125-136) as a
  record together with a validation function `validateLeadRequest` that
  mirrors pydantic v2 field-by-field validation in declaration order;
* the collection schema `Lead` (schemas.py, lines 42-57), which is the
  same shape but adds the `ge=0` bound on `units_count`, as `validateLead`;
* the document store (`database.create_document`, whose module is not part
  of the sources) from the specification's Repository contract; and
* the endpoint `create_lead` (main.py, lines 138-144) including the
  framework's behaviour of rejecting invalid bodies with HTTP 422 before
  the handler body runs.
-/

/-- A JSON value as delivered by the web framework to validation. -/
inductive JsonValue where
  | null : JsonValue
  | str : String → JsonValue
  | int : Int → JsonValue
  | list : List JsonValue → JsonValue
deriving Repr

mutual

/-- Decidable equality of JSON values. -/
def JsonValue.decEq : (a b : JsonValue) → Decidable (a = b)
  | .null, .null => isTrue rfl
  | .str a, .str b =>
      if h : a = b then isTrue (by rw [h]) else isFalse (fun hh => h (by cases hh; rfl))
  | .int a, .int b =>
      if h : a = b then isTrue (by rw [h]) else isFalse (fun hh => h (by cases hh; rfl))
  | .list xs, .list ys =>
      match JsonValue.decEqList xs ys with
      | isTrue h => isTrue (by rw [h])
      | isFalse h => isFalse (fun hh => h (by cases hh; rfl))
  | .null, .str _ => isFalse (fun h => JsonValue.noConfusion h)
  | .null, .int _ => isFalse (fun h => JsonValue.noConfusion h)
  | .null, .list _ => isFalse (fun h => JsonValue.noConfusion h)
  | .str _, .null => isFalse (fun h => JsonValue.noConfusion h)
  | .str _, .int _ => isFalse (fun h => JsonValue.noConfusion h)
  | .str _, .list _ => isFalse (fun h => JsonValue.noConfusion h)
  | .int _, .null => isFalse (fun h => JsonValue.noConfusion h)
  | .int _, .str _ => isFalse (fun h => JsonValue.noConfusion h)
  | .int _, .list _ => isFalse (fun h => JsonValue.noConfusion h)
  | .list _, .null => isFalse (fun h => JsonValue.noConfusion h)
  | .list _, .str _ => isFalse (fun h => JsonValue.noConfusion h)
  | .list _, .int _ => isFalse (fun h => JsonValue.noConfusion h)

/-- Decidable equality of lists of JSON values. -/
def JsonValue.decEqList : (xs ys : List JsonValue) → Decidable (xs = ys)
  | [], [] => isTrue rfl
  | [], _ :: _ => isFalse (fun h => List.noConfusion h)
  | _ :: _, [] => isFalse (fun h => List.noConfusion h)
  | x :: xs, y :: ys =>
      match JsonValue.decEq x y, JsonValue.decEqList xs ys with
      | isTrue h1, isTrue h2 => isTrue (by rw [h1, h2])
      | isFalse h1, _ => isFalse (fun h => h1 (by cases h; rfl))
      | _, isFalse h2 => isFalse (fun h => h2 (by cases h; rfl))

end

instance : DecidableEq JsonValue := JsonValue.decEq

/-- An inbound request body: a finite map from field names to JSON values,
represented as an association list (first binding wins). -/
abbrev Payload : Type := List (String × JsonValue)

/-- Field lookup in a payload; `none` means the key is absent. -/
def lookup (p : Payload) (k : String) : Option JsonValue :=
  (List.find? (fun kv => kv.1 == k) p).map (fun kv => kv.2)

/-- A pydantic validation failure: the failing field and the violated
rule (pydantic's error `type`). -/
structure ValidationError where
  field : String
  rule : String
deriving Repr, DecidableEq

/-- The normalized lead value produced by validation: the eleven fields of
`LeadRequest` (main.py, lines 125-136); `schemas.Lead` has the same shape. -/
structure LeadRequest where
  name : String
  email : String
  phone : Option String
  company : Option String
  location : Option String
  unit_types : Option (List String)
  units_count : Option Int
  capacity_tonnage : Option String
  preferred_interval : Option String
  pain_points : Option (List String)
  message : Option String
deriving Repr, DecidableEq

/-- Characters pydantic's `EmailStr` accepts in the local part of an
address (model of the third-party email-validator syntax check). -/
def isLocalChar (c : Char) : Bool :=
  c.isAlphanum || c == '.' || c == '_' || c == '-' || c == '+'

/-- Characters accepted in the domain part of an address. -/
def isDomainChar (c : Char) : Bool :=
  c.isAlphanum || c == '-' || c == '.'

/-- Model of the email-address syntax check performed by pydantic's
`EmailStr` (main.py line 127): one `@`, a non-empty local part of allowed
characters, and a dotted domain of allowed characters. -/
def isValidEmail (s : String) : Bool :=
  let cs := s.toList
  let localPart := cs.takeWhile (fun c => c != '@')
  match cs.dropWhile (fun c => c != '@') with
  | '@' :: domain =>
      !localPart.isEmpty && localPart.all isLocalChar &&
      !domain.isEmpty && domain.all isDomainChar &&
      domain.contains '.' &&
      domain.head? != some '.' && domain.getLast? != some '.'
  | _ => false

/-- Validation of a required `str` field (`name: str`): the key must be
present and hold a string; pydantic v2 accepts any string, the empty one
included. -/
def decodeRequiredStr (k : String) : Option JsonValue → Except ValidationError String
  | some (JsonValue.str s) => Except.ok s
  | some _ => Except.error ⟨k, "string_type"⟩
  | none => Except.error ⟨k, "missing"⟩

/-- Validation of a required `EmailStr` field: present, a string, and
well-formed as an email address. -/
def decodeEmail (k : String) : Option JsonValue → Except ValidationError String
  | some (JsonValue.str s) =>
      if isValidEmail s then Except.ok s else Except.error ⟨k, "value_error"⟩
  | some _ => Except.error ⟨k, "string_type"⟩
  | none => Except.error ⟨k, "missing"⟩

/-- Validation of an `Optional[str] = None` field: an absent key and an
explicit JSON `null` both become `none`. -/
def decodeOptStr (k : String) : Option JsonValue → Except ValidationError (Option String)
  | none => Except.ok none
  | some JsonValue.null => Except.ok none
  | some (JsonValue.str s) => Except.ok (some s)
  | some _ => Except.error ⟨k, "string_type"⟩

/-- Validation of an `Optional[int] = None` field (no bound, as in
`LeadRequest.units_count`, main.py line 132). -/
def decodeOptInt (k : String) : Option JsonValue → Except ValidationError (Option Int)
  | none => Except.ok none
  | some JsonValue.null => Except.ok none
  | some (JsonValue.int n) => Except.ok (some n)
  | some _ => Except.error ⟨k, "int_type"⟩

/-- Validation of `Optional[int] = Field(None, ge=0)` as in
`Lead.units_count` (schemas.py line 53): additionally requires `0 ≤ n`. -/
def decodeOptIntGe0 (k : String) : Option JsonValue → Except ValidationError (Option Int)
  | none => Except.ok none
  | some JsonValue.null => Except.ok none
  | some (JsonValue.int n) =>
      if 0 ≤ n then Except.ok (some n) else Except.error ⟨k, "greater_than_equal"⟩
  | some _ => Except.error ⟨k, "int_type"⟩

/-- Extract a string from a JSON value, for list elements. -/
def asString : JsonValue → Except Unit String
  | JsonValue.str s => Except.ok s
  | _ => Except.error ()

/-- Validation of an `Optional[List[str]] = None` field: absent or `null`
become `none`; a list must consist of strings only. -/
def decodeOptStrList (k : String) : Option JsonValue → Except ValidationError (Option (List String))
  | none => Except.ok none
  | some JsonValue.null => Except.ok none
  | some (JsonValue.list xs) =>
      match xs.mapM asString with
      | Except.ok ss => Except.ok (some ss)
      | Except.error _ => Except.error ⟨k, "string_type"⟩
  | some _ => Except.error ⟨k, "list_type"⟩

/-- Pydantic validation of the request body against `LeadRequest`
(main.py, lines 125-136): each declared field is validated in declaration
order; keys not declared on the model are ignored (pydantic's default
`extra="ignore"`). -/
def validateLeadRequest (p : Payload) : Except ValidationError LeadRequest := do
  let name ← decodeRequiredStr "name" (lookup p "name")
  let email ← decodeEmail "email" (lookup p "email")
  let phone ← decodeOptStr "phone" (lookup p "phone")
  let company ← decodeOptStr "company" (lookup p "company")
  let location ← decodeOptStr "location" (lookup p "location")
  let unit_types ← decodeOptStrList "unit_types" (lookup p "unit_types")
  let units_count ← decodeOptInt "units_count" (lookup p "units_count")
  let capacity_tonnage ← decodeOptStr "capacity_tonnage" (lookup p "capacity_tonnage")
  let preferred_interval ← decodeOptStr "preferred_interval" (lookup p "preferred_interval")
  let pain_points ← decodeOptStrList "pain_points" (lookup p "pain_points")
  let message ← decodeOptStr "message" (lookup p "message")
  pure { name := name, email := email, phone := phone, company := company,
         location := location, unit_types := unit_types, units_count := units_count,
         capacity_tonnage := capacity_tonnage, preferred_interval := preferred_interval,
         pain_points := pain_points, message := message }

/-- Pydantic validation against the collection schema `Lead`
(schemas.py, lines 42-57): identical to `validateLeadRequest` except that
`units_count` carries the `ge=0` bound. This model is declared in the
repository but is not used on the request path. -/
def validateLead (p : Payload) : Except ValidationError LeadRequest := do
  let name ← decodeRequiredStr "name" (lookup p "name")
  let email ← decodeEmail "email" (lookup p "email")
  let phone ← decodeOptStr "phone" (lookup p "phone")
  let company ← decodeOptStr "company" (lookup p "company")
  let location ← decodeOptStr "location" (lookup p "location")
  let unit_types ← decodeOptStrList "unit_types" (lookup p "unit_types")
  let units_count ← decodeOptIntGe0 "units_count" (lookup p "units_count")
  let capacity_tonnage ← decodeOptStr "capacity_tonnage" (lookup p "capacity_tonnage")
  let preferred_interval ← decodeOptStr "preferred_interval" (lookup p "preferred_interval")
  let pain_points ← decodeOptStrList "pain_points" (lookup p "pain_points")
  let message ← decodeOptStr "message" (lookup p "message")
  pure { name := name, email := email, phone := phone, company := company,
         location := location, unit_types := unit_types, units_count := units_count,
         capacity_tonnage := capacity_tonnage, preferred_interval := preferred_interval,
         pain_points := pain_points, message := message }

/-- The eleven field names declared on `LeadRequest` and `Lead`, in
declaration order. -/
def declaredKeys : List String :=
  ["name", "email", "phone", "company", "location", "unit_types",
   "units_count", "capacity_tonnage", "preferred_interval", "pain_points", "message"]

/-- The nine optional field names. -/
def optionalKeys : List String :=
  ["phone", "company", "location", "unit_types", "units_count",
   "capacity_tonnage", "preferred_interval", "pain_points", "message"]

/-- An optional string rendered back to JSON: `None` dumps as `null`. -/
def dumpOptStr : Option String → JsonValue
  | none => JsonValue.null
  | some s => JsonValue.str s

/-- An optional integer rendered back to JSON. -/
def dumpOptInt : Option Int → JsonValue
  | none => JsonValue.null
  | some n => JsonValue.int n

/-- An optional string list rendered back to JSON. -/
def dumpOptStrList : Option (List String) → JsonValue
  | none => JsonValue.null
  | some ss => JsonValue.list (ss.map JsonValue.str)

/-- A document handed to the store. -/
abbrev Document : Type := List (String × JsonValue)

/-- `lead.model_dump()` (main.py line 141): the document holds exactly the
declared fields, field for field, with `None` rendered as `null`. -/
def model_dump (lead : LeadRequest) : Document :=
  [("name", JsonValue.str lead.name),
   ("email", JsonValue.str lead.email),
   ("phone", dumpOptStr lead.phone),
   ("company", dumpOptStr lead.company),
   ("location", dumpOptStr lead.location),
   ("unit_types", dumpOptStrList lead.unit_types),
   ("units_count", dumpOptInt lead.units_count),
   ("capacity_tonnage", dumpOptStr lead.capacity_tonnage),
   ("preferred_interval", dumpOptStr lead.preferred_interval),
   ("pain_points", dumpOptStrList lead.pain_points),
   ("message", dumpOptStr lead.message)]

/-- Modelled from the spec: the state of the document store behind
`database.create_document`, whose module is not among the sources. `log`
records the durable writes as (collection, document) pairs in order;
`nextId` generates the "newly generated unique identifier"; `insertCalls`
counts invocations of the insert operation; `failing`/`failMsg` model an
unreachable store whose exception carries the message `failMsg`. -/
structure Store where
  log : List (String × Document)
  nextId : Nat
  insertCalls : Nat
  failing : Bool
  failMsg : String
deriving Repr, DecidableEq

/-- Modelled from the spec: `database.create_document(collection, doc)`
(the Repository's `insert`): appends the document to the named collection
and returns a generated identifier, or raises a persistence error whose
message is the store's failure message. Every call counts as one insert
invocation. -/
def create_document (collection : String) (doc : Document) (s : Store) :
    Except String String × Store :=
  if s.failing then
    (Except.error s.failMsg, { s with insertCalls := s.insertCalls + 1 })
  else
    (Except.ok (toString s.nextId),
     { s with log := s.log ++ [(collection, doc)],
              nextId := s.nextId + 1,
              insertCalls := s.insertCalls + 1 })

/-- The HTTP response of `POST /api/leads`. `success id` is the body
`{"status": "success", "id": id}`; `clientError` is the framework's
validation rejection (HTTP 422 with the field/rule detail); `serverError`
is `HTTPException(status_code=500, detail=...)`. Neither error carries an
identifier. -/
inductive LeadResponse where
  | success : String → LeadResponse
  | clientError : Nat → ValidationError → LeadResponse
  | serverError : Nat → String → LeadResponse
deriving Repr, DecidableEq

/-- The endpoint `create_lead` (main.py, lines 138-144) together with the
framework's body validation: an invalid body is rejected with HTTP 422
before the handler body runs and before any store access; a valid body is
dumped and inserted into the fixed collection `"lead"`; an insert failure
is turned into HTTP 500 with `detail = str(e)`. -/
def create_lead (p : Payload) (s : Store) : LeadResponse × Store :=
  match validateLeadRequest p with
  | Except.error e => (LeadResponse.clientError 422 e, s)
  | Except.ok lead =>
      match create_document "lead" (model_dump lead) s with
      | (Except.ok id, s') => (LeadResponse.success id, s')
      | (Except.error msg, s') => (LeadResponse.serverError 500 msg, s')

/-- An initial, reachable store. -/
def store0 : Store :=
  { log := [], nextId := 0, insertCalls := 0, failing := false, failMsg := "" }

example : isValidEmail "jane@example.com" = true := by decide
example : isValidEmail "not-an-email" = false := by decide

/-! ## Helper lemmas -/

theorem lookup_cons_self (p : Payload) (k : String) (v : JsonValue) :
    lookup ((k, v) :: p) k = some v := by
  simp [lookup, List.find?]

theorem lookup_cons_ne (p : Payload) (k k' : String) (v : JsonValue)
    (h : (k == k') = false) : lookup ((k, v) :: p) k' = lookup p k' := by
  simp [lookup, List.find?, h]

theorem find?_filter_declared (t : List (String × JsonValue)) (k : String)
    (h : declaredKeys.contains k = true) :
    List.find? (fun kv => kv.1 == k) (t.filter (fun kv => declaredKeys.contains kv.1)) =
      List.find? (fun kv => kv.1 == k) t := by
  induction t with
  | nil => rfl
  | cons a t ih =>
      rw [List.filter_cons]
      by_cases hkeep : declaredKeys.contains a.1 = true
      · rw [if_pos hkeep]
        cases hk : (a.1 == k) with
        | true => simp only [List.find?_cons, hk]
        | false =>
            simp only [List.find?_cons, hk]
            exact ih
      · rw [if_neg hkeep]
        have hk : (a.1 == k) = false := by
          cases hkk : (a.1 == k) with
          | true =>
              have ha : a.1 = k := by simpa using hkk
              exact absurd (ha ▸ h) hkeep
          | false => rfl
        simp only [List.find?_cons, hk]
        exact ih

theorem lookup_filter_declared (p : Payload) (k : String)
    (h : declaredKeys.contains k = true) :
    lookup (p.filter (fun kv => declaredKeys.contains kv.1)) k = lookup p k := by
  unfold lookup
  rw [find?_filter_declared p k h]

theorem validate_eq_of_decodes_eq (p q : Payload)
    (h1 : decodeRequiredStr "name" (lookup q "name") = decodeRequiredStr "name" (lookup p "name"))
    (h2 : decodeEmail "email" (lookup q "email") = decodeEmail "email" (lookup p "email"))
    (h3 : decodeOptStr "phone" (lookup q "phone") = decodeOptStr "phone" (lookup p "phone"))
    (h4 : decodeOptStr "company" (lookup q "company") = decodeOptStr "company" (lookup p "company"))
    (h5 : decodeOptStr "location" (lookup q "location") = decodeOptStr "location" (lookup p "location"))
    (h6 : decodeOptStrList "unit_types" (lookup q "unit_types") = decodeOptStrList "unit_types" (lookup p "unit_types"))
    (h7 : decodeOptInt "units_count" (lookup q "units_count") = decodeOptInt "units_count" (lookup p "units_count"))
    (h8 : decodeOptStr "capacity_tonnage" (lookup q "capacity_tonnage") = decodeOptStr "capacity_tonnage" (lookup p "capacity_tonnage"))
    (h9 : decodeOptStr "preferred_interval" (lookup q "preferred_interval") = decodeOptStr "preferred_interval" (lookup p "preferred_interval"))
    (h10 : decodeOptStrList "pain_points" (lookup q "pain_points") = decodeOptStrList "pain_points" (lookup p "pain_points"))
    (h11 : decodeOptStr "message" (lookup q "message") = decodeOptStr "message" (lookup p "message")) :
    validateLeadRequest q = validateLeadRequest p := by
  simp only [validateLeadRequest, h1, h2, h3, h4, h5, h6, h7, h8, h9, h10, h11]

theorem create_lead_congr (p q : Payload)
    (h : validateLeadRequest q = validateLeadRequest p) (s : Store) :
    create_lead q s = create_lead p s := by
  simp only [create_lead, h]

theorem create_lead_of_error (p : Payload) (e : ValidationError) (s : Store)
    (h : validateLeadRequest p = Except.error e) :
    create_lead p s = (LeadResponse.clientError 422 e, s) := by
  simp only [create_lead, h]

theorem create_lead_of_ok_live (p : Payload) (lead : LeadRequest) (s : Store)
    (h : validateLeadRequest p = Except.ok lead) (hf : s.failing = false) :
    create_lead p s =
      (LeadResponse.success (toString s.nextId),
       { s with log := s.log ++ [("lead", model_dump lead)],
                nextId := s.nextId + 1,
                insertCalls := s.insertCalls + 1 }) := by
  simp only [create_lead, h, create_document, hf]
  simp

theorem create_lead_of_ok_down (p : Payload) (lead : LeadRequest) (s : Store)
    (h : validateLeadRequest p = Except.ok lead) (hf : s.failing = true) :
    create_lead p s =
      (LeadResponse.serverError 500 s.failMsg,
       { s with insertCalls := s.insertCalls + 1 }) := by
  simp only [create_lead, h, create_document, hf]
  simp

/-! ## Concrete inputs used in the scenarios -/

/-- The payload of end-to-end scenario 2: present but empty `name`. -/
def emptyNamePayload : Payload :=
  [("name", JsonValue.str ""), ("email", JsonValue.str "jane@example.com")]

/-- The lead that `LeadRequest` validation produces for `emptyNamePayload`. -/
def emptyNameLead : LeadRequest :=
  { name := "", email := "jane@example.com", phone := none, company := none,
    location := none, unit_types := none, units_count := none,
    capacity_tonnage := none, preferred_interval := none,
    pain_points := none, message := none }

/-- A payload with a negative `units_count`. -/
def negCountPayload : Payload :=
  [("name", JsonValue.str "Jane Doe"), ("email", JsonValue.str "jane@example.com"),
   ("units_count", JsonValue.int (-1))]

/-- The lead that `LeadRequest` validation produces for `negCountPayload`. -/
def negCountLead : LeadRequest :=
  { name := "Jane Doe", email := "jane@example.com", phone := none, company := none,
    location := none, unit_types := none, units_count := some (-1),
    capacity_tonnage := none, preferred_interval := none,
    pain_points := none, message := none }

/-- The payload of end-to-end scenario 1. -/
def janePayload : Payload :=
  [("name", JsonValue.str "Jane Doe"), ("email", JsonValue.str "jane@example.com")]

/-- The lead that validation produces for `janePayload`. -/
def janeLead : LeadRequest :=
  { name := "Jane Doe", email := "jane@example.com", phone := none, company := none,
    location := none, unit_types := none, units_count := none,
    capacity_tonnage := none, preferred_interval := none,
    pain_points := none, message := none }

example : validateLeadRequest emptyNamePayload = Except.ok emptyNameLead := rfl
example : validateLeadRequest negCountPayload = Except.ok negCountLead := rfl
example : validateLead negCountPayload = Except.error ⟨"units_count", "greater_than_equal"⟩ := rfl
example : validateLeadRequest janePayload = Except.ok janeLead := rfl
example : validateLeadRequest [] = Except.error ⟨"name", "missing"⟩ := rfl

/-- A store whose backing database is unreachable; its insert raises an
exception with the given message. -/
def downStore : Store :=
  { log := [], nextId := 0, insertCalls := 0, failing := true,
    failMsg := "connection refused" }

theorem except_bind_ok {ε α β : Type} (a : α) (f : α → Except ε β) :
    (Except.ok a >>= f) = f a := rfl

theorem except_bind_error {ε α β : Type} (e : ε) (f : α → Except ε β) :
    ((Except.error e : Except ε α) >>= f) = Except.error e := rfl

theorem decodeOptStr_cons_null (p : Payload) (k key : String)
    (habs : lookup p k = none) :
    decodeOptStr key (lookup ((k, JsonValue.null) :: p) key) =
      decodeOptStr key (lookup p key) := by
  by_cases h : k = key
  · subst h
    rw [lookup_cons_self, habs]
    rfl
  · rw [lookup_cons_ne p k key _ (beq_eq_false_iff_ne.mpr h)]

theorem decodeOptInt_cons_null (p : Payload) (k key : String)
    (habs : lookup p k = none) :
    decodeOptInt key (lookup ((k, JsonValue.null) :: p) key) =
      decodeOptInt key (lookup p key) := by
  by_cases h : k = key
  · subst h
    rw [lookup_cons_self, habs]
    rfl
  · rw [lookup_cons_ne p k key _ (beq_eq_false_iff_ne.mpr h)]

theorem decodeOptStrList_cons_null (p : Payload) (k key : String)
    (habs : lookup p k = none) :
    decodeOptStrList key (lookup ((k, JsonValue.null) :: p) key) =
      decodeOptStrList key (lookup p key) := by
  by_cases h : k = key
  · subst h
    rw [lookup_cons_self, habs]
    rfl
  · rw [lookup_cons_ne p k key _ (beq_eq_false_iff_ne.mpr h)]

theorem validate_fails (p : Payload)
    (h : lookup p "name" = none ∨ lookup p "email" = none ∨
         ∃ es, lookup p "email" = some (JsonValue.str es) ∧ isValidEmail es = false) :
    ∃ e, validateLeadRequest p = Except.error e := by
  rcases h with h | h | ⟨es, hs, hbad⟩
  · refine ⟨⟨"name", "missing"⟩, ?_⟩
    unfold validateLeadRequest
    rw [h]
    rfl
  · cases hname : decodeRequiredStr "name" (lookup p "name") with
    | error e0 =>
        refine ⟨e0, ?_⟩
        unfold validateLeadRequest
        rw [hname]
        rfl
    | ok a =>
        refine ⟨⟨"email", "missing"⟩, ?_⟩
        simp only [validateLeadRequest, hname, except_bind_ok]
        rw [h]
        rfl
  · cases hname : decodeRequiredStr "name" (lookup p "name") with
    | error e0 =>
        refine ⟨e0, ?_⟩
        unfold validateLeadRequest
        rw [hname]
        rfl
    | ok a =>
        refine ⟨⟨"email", "value_error"⟩, ?_⟩
        simp only [validateLeadRequest, hname, except_bind_ok]
        rw [hs]
        simp [decodeEmail, hbad, except_bind_error]

theorem create_lead_ok_not_client (p : Payload) (lead : LeadRequest) (s : Store)
    (e : ValidationError) (hv : validateLeadRequest p = Except.ok lead) :
    (create_lead p s).1 ≠ LeadResponse.clientError 422 e := by
  cases hf : s.failing with
  | false =>
      rw [create_lead_of_ok_live p lead s hv hf]
      simp
  | true =>
      rw [create_lead_of_ok_down p lead s hv hf]
      simp

/-! ## Claims -/

/-- C1, counterexample to the claim as stated: for the scenario-2 payload
`{name: "", email: "jane@example.com"}` validation does not fail — it
succeeds with `name = ""` — and the handler attempts and completes the
insert, returning a success response instead of a client error. -/
theorem claim_C1_counterexample :
    validateLeadRequest emptyNamePayload = Except.ok emptyNameLead ∧
    create_lead emptyNamePayload store0 =
      (LeadResponse.success "0",
       { log := [("lead", model_dump emptyNameLead)], nextId := 1, insertCalls := 1,
         failing := false, failMsg := "" }) :=
  ⟨rfl, rfl⟩

/-- C1 (amended): for every payload equal to the scenario-2 payload
`{name: "", email: "jane@example.com"}`, validation succeeds — the request
model `LeadRequest` requires `name` only to be a string and imposes no
non-empty rule — the insert is attempted, and on a reachable store the
response is `{status: "success", id: <store id>}` with the empty-named
lead persisted. -/
theorem claim_C1 (s : Store) (hf : s.failing = false) :
    validateLeadRequest emptyNamePayload = Except.ok emptyNameLead ∧
    create_lead emptyNamePayload s =
      (LeadResponse.success (toString s.nextId),
       { s with log := s.log ++ [("lead", model_dump emptyNameLead)],
                nextId := s.nextId + 1, insertCalls := s.insertCalls + 1 }) :=
  ⟨rfl, create_lead_of_ok_live emptyNamePayload emptyNameLead s rfl hf⟩

/-- C1 witness: the amended claim instantiated at the fresh reachable
store. -/
theorem claim_C1_witness :
    validateLeadRequest emptyNamePayload = Except.ok emptyNameLead ∧
    create_lead emptyNamePayload store0 =
      (LeadResponse.success (toString store0.nextId),
       { store0 with log := store0.log ++ [("lead", model_dump emptyNameLead)],
                     nextId := store0.nextId + 1,
                     insertCalls := store0.insertCalls + 1 }) :=
  claim_C1 store0 rfl

/-- C2, code-bug evidence: the payload
`{name: "Jane Doe", email: "jane@example.com", units_count: -1}` passes
`LeadRequest` validation (main.py line 132 has no `ge=0` bound) and is
persisted with `units_count = -1`, while the repository's own collection
schema `Lead` (schemas.py line 53, `ge=0`) rejects the very same payload
with a `greater_than_equal` error on field `units_count`. -/
theorem claim_C2 :
    validateLeadRequest negCountPayload = Except.ok negCountLead ∧
    negCountLead.units_count = some (-1) ∧
    validateLead negCountPayload = Except.error ⟨"units_count", "greater_than_equal"⟩ ∧
    (create_lead negCountPayload store0).2.log = [("lead", model_dump negCountLead)] :=
  ⟨rfl, rfl, rfl, rfl⟩

/-- C3: every payload that is missing `name`, missing `email`, or whose
`email` is a string that fails the email-syntax check, is rejected by
validation with a `ValidationError`, the response is the client error
(HTTP 422), and the store is never invoked (it is returned unchanged). -/
theorem claim_C3 (p : Payload)
    (h : lookup p "name" = none ∨ lookup p "email" = none ∨
         ∃ es, lookup p "email" = some (JsonValue.str es) ∧ isValidEmail es = false) :
    ∃ e, validateLeadRequest p = Except.error e ∧
      ∀ st, create_lead p st = (LeadResponse.clientError 422 e, st) := by
  obtain ⟨e, he⟩ := validate_fails p h
  exact ⟨e, he, fun st => create_lead_of_error p e st he⟩

/-- C3 witness: the empty payload (missing `name`) is rejected and the
store is untouched. -/
theorem claim_C3_witness :
    ∃ e, validateLeadRequest [] = Except.error e ∧
      ∀ st, create_lead [] st = (LeadResponse.clientError 422 e, st) :=
  claim_C3 [] (Or.inl rfl)

/-- C4: for every payload that validates to some lead and every reachable
store, the handler performs exactly the one insert of that lead's
field-for-field document `model_dump lead` into the fixed collection
`"lead"` and responds `{status: "success", id: <the identifier the store
returned>}`. -/
theorem claim_C4 (p : Payload) (lead : LeadRequest) (s : Store)
    (h : validateLeadRequest p = Except.ok lead) (hf : s.failing = false) :
    create_lead p s =
      (LeadResponse.success (toString s.nextId),
       { s with log := s.log ++ [("lead", model_dump lead)],
                nextId := s.nextId + 1,
                insertCalls := s.insertCalls + 1 }) :=
  create_lead_of_ok_live p lead s h hf

/-- C4 witness: the scenario-1 payload against the fresh reachable
store. -/
theorem claim_C4_witness :
    create_lead janePayload store0 =
      (LeadResponse.success (toString store0.nextId),
       { store0 with log := store0.log ++ [("lead", model_dump janeLead)],
                     nextId := store0.nextId + 1,
                     insertCalls := store0.insertCalls + 1 }) :=
  claim_C4 janePayload janeLead store0 rfl rfl

/-- C5: for every validated payload whose insert raises, the handler
responds with HTTP 500 whose `detail` is exactly the raised error's
message (`str(e)` — nothing from the store beyond that message), no
identifier is returned (the response is not a success), and nothing is
persisted (only the invocation counter changes). -/
theorem claim_C5 (p : Payload) (lead : LeadRequest) (s : Store)
    (h : validateLeadRequest p = Except.ok lead) (hf : s.failing = true) :
    create_lead p s =
      (LeadResponse.serverError 500 s.failMsg,
       { s with insertCalls := s.insertCalls + 1 }) ∧
    ∀ id, (create_lead p s).1 ≠ LeadResponse.success id := by
  have hmain := create_lead_of_ok_down p lead s h hf
  refine ⟨hmain, fun id => ?_⟩
  rw [hmain]
  simp

/-- C5 witness: the scenario-1 payload against the unreachable store. -/
theorem claim_C5_witness :
    create_lead janePayload downStore =
      (LeadResponse.serverError 500 downStore.failMsg,
       { downStore with insertCalls := downStore.insertCalls + 1 }) ∧
    ∀ id, (create_lead janePayload downStore).1 ≠ LeadResponse.success id :=
  claim_C5 janePayload janeLead downStore rfl rfl

/-- C6: for every payload and every optional field name `k` absent from
it, adding `k` explicitly bound to JSON `null` changes neither the result
of validation (both give the field `none`) nor anything the handler does
— in particular the persisted document is identical. -/
theorem claim_C6 (p : Payload) (k : String)
    (hk : k ∈ optionalKeys) (habs : lookup p k = none) :
    validateLeadRequest ((k, JsonValue.null) :: p) = validateLeadRequest p ∧
    ∀ s, create_lead ((k, JsonValue.null) :: p) s = create_lead p s := by
  have hne1 : k ≠ "name" := by
    intro he
    subst he
    exact absurd hk (by decide)
  have hne2 : k ≠ "email" := by
    intro he
    subst he
    exact absurd hk (by decide)
  have hval : validateLeadRequest ((k, JsonValue.null) :: p) = validateLeadRequest p := by
    refine validate_eq_of_decodes_eq _ _ ?_ ?_ ?_ ?_ ?_ ?_ ?_ ?_ ?_ ?_ ?_
    · exact congrArg _ (lookup_cons_ne p k "name" _ (beq_eq_false_iff_ne.mpr hne1))
    · exact congrArg _ (lookup_cons_ne p k "email" _ (beq_eq_false_iff_ne.mpr hne2))
    · exact decodeOptStr_cons_null p k "phone" habs
    · exact decodeOptStr_cons_null p k "company" habs
    · exact decodeOptStr_cons_null p k "location" habs
    · exact decodeOptStrList_cons_null p k "unit_types" habs
    · exact decodeOptInt_cons_null p k "units_count" habs
    · exact decodeOptStr_cons_null p k "capacity_tonnage" habs
    · exact decodeOptStr_cons_null p k "preferred_interval" habs
    · exact decodeOptStrList_cons_null p k "pain_points" habs
    · exact decodeOptStr_cons_null p k "message" habs
  exact ⟨hval, fun s => create_lead_congr _ _ hval s⟩

/-- C6 witness: adding `phone: null` to the scenario-1 payload changes
nothing. -/
theorem claim_C6_witness :
    validateLeadRequest (("phone", JsonValue.null) :: janePayload) =
      validateLeadRequest janePayload ∧
    ∀ s, create_lead (("phone", JsonValue.null) :: janePayload) s =
      create_lead janePayload s :=
  claim_C6 janePayload "phone" (by decide) rfl

/-- C7: end-to-end scenario 1: the payload
`{name: "Jane Doe", email: "jane@example.com"}` validates successfully
with every optional field defaulted to `none` (the explicit "not
provided" value), and against any reachable store the insert succeeds and
the response is `{status: "success", id: <store id>}`. -/
theorem claim_C7 (s : Store) (hf : s.failing = false) :
    validateLeadRequest janePayload = Except.ok janeLead ∧
    janeLead.phone = none ∧ janeLead.company = none ∧ janeLead.location = none ∧
    janeLead.unit_types = none ∧ janeLead.units_count = none ∧
    janeLead.capacity_tonnage = none ∧ janeLead.preferred_interval = none ∧
    janeLead.pain_points = none ∧ janeLead.message = none ∧
    create_lead janePayload s =
      (LeadResponse.success (toString s.nextId),
       { s with log := s.log ++ [("lead", model_dump janeLead)],
                nextId := s.nextId + 1, insertCalls := s.insertCalls + 1 }) :=
  ⟨rfl, rfl, rfl, rfl, rfl, rfl, rfl, rfl, rfl, rfl,
   create_lead_of_ok_live janePayload janeLead s rfl hf⟩

/-- C7 witness: scenario 1 at the fresh reachable store. -/
theorem claim_C7_witness :
    validateLeadRequest janePayload = Except.ok janeLead ∧
    janeLead.phone = none ∧ janeLead.company = none ∧ janeLead.location = none ∧
    janeLead.unit_types = none ∧ janeLead.units_count = none ∧
    janeLead.capacity_tonnage = none ∧ janeLead.preferred_interval = none ∧
    janeLead.pain_points = none ∧ janeLead.message = none ∧
    create_lead janePayload store0 =
      (LeadResponse.success (toString store0.nextId),
       { store0 with log := store0.log ++ [("lead", model_dump janeLead)],
                     nextId := store0.nextId + 1,
                     insertCalls := store0.insertCalls + 1 }) :=
  claim_C7 store0 rfl

/-- C8: validation is a pure function of the request payload. In the
embedding the store is the only ambient state: whether (and with which
field/rule) a payload is rejected by validation is independent of the
store state, and a rejected request leaves the store completely
unchanged — validation itself has no side effects. -/
theorem claim_C8 (p : Payload) (s₁ s₂ : Store) (e : ValidationError) :
    ((create_lead p s₁).1 = LeadResponse.clientError 422 e ↔
     (create_lead p s₂).1 = LeadResponse.clientError 422 e) ∧
    ((create_lead p s₁).1 = LeadResponse.clientError 422 e →
      validateLeadRequest p = Except.error e ∧ (create_lead p s₁).2 = s₁) := by
  cases hv : validateLeadRequest p with
  | error e0 =>
      rw [create_lead_of_error p e0 s₁ hv, create_lead_of_error p e0 s₂ hv]
      refine ⟨Iff.rfl, fun he => ?_⟩
      have he0 : e0 = e := by simpa using he
      subst he0
      exact ⟨rfl, rfl⟩
  | ok lead =>
      constructor
      · constructor
        · intro h
          exact absurd h (create_lead_ok_not_client p lead s₁ e hv)
        · intro h
          exact absurd h (create_lead_ok_not_client p lead s₂ e hv)
      · intro h
        exact absurd h (create_lead_ok_not_client p lead s₁ e hv)

/-- C8 witness: the empty payload is rejected for the missing `name`
identically against the reachable and the unreachable store, and the
store is unchanged. -/
theorem claim_C8_witness :
    ((create_lead [] store0).1 = LeadResponse.clientError 422 ⟨"name", "missing"⟩ ↔
     (create_lead [] downStore).1 = LeadResponse.clientError 422 ⟨"name", "missing"⟩) ∧
    (validateLeadRequest [] = Except.error ⟨"name", "missing"⟩ ∧
     (create_lead [] store0).2 = store0) :=
  ⟨(claim_C8 [] store0 downStore ⟨"name", "missing"⟩).1,
   (claim_C8 [] store0 downStore ⟨"name", "missing"⟩).2 rfl⟩

/-- C9: validation depends only on the eleven declared fields — restricting
a payload to its declared keys yields the identical validation result, so
extra keys are ignored — and the document handed to the store carries
exactly the eleven declared field names and never an extra key. -/
theorem claim_C9 (p : Payload) (lead : LeadRequest) :
    validateLeadRequest (p.filter (fun kv => declaredKeys.contains kv.1)) =
      validateLeadRequest p ∧
    (model_dump lead).map Prod.fst = declaredKeys := by
  constructor
  · apply validate_eq_of_decodes_eq <;>
      exact congrArg _ (lookup_filter_declared p _ (by decide))
  · rfl

/-- C10: each invocation of the handler performs at most one store insert:
the insert-invocation counter grows by zero (validation failure) or one,
and grows by exactly one on every request that passes validation — with
no second write on any path. -/
theorem claim_C10 (p : Payload) (s : Store) :
    ((create_lead p s).2.insertCalls = s.insertCalls ∨
     (create_lead p s).2.insertCalls = s.insertCalls + 1) ∧
    (∀ lead, validateLeadRequest p = Except.ok lead →
      (create_lead p s).2.insertCalls = s.insertCalls + 1) := by
  cases hv : validateLeadRequest p with
  | error e =>
      rw [create_lead_of_error p e s hv]
      refine ⟨Or.inl rfl, fun lead hlead => ?_⟩
      exact Except.noConfusion hlead
  | ok lead =>
      have hone : (create_lead p s).2.insertCalls = s.insertCalls + 1 := by
        cases hf : s.failing with
        | false => rw [create_lead_of_ok_live p lead s hv hf]
        | true => rw [create_lead_of_ok_down p lead s hv hf]
      exact ⟨Or.inr hone, fun _ _ => hone⟩

/-- C10 witness: the scenario-1 payload at the fresh store performs exactly
one insert. -/
theorem claim_C10_witness :
    ((create_lead janePayload store0).2.insertCalls = store0.insertCalls ∨
     (create_lead janePayload store0).2.insertCalls = store0.insertCalls + 1) ∧
    (create_lead janePayload store0).2.insertCalls = store0.insertCalls + 1 :=
  ⟨(claim_C10 janePayload store0).1,
   (claim_C10 janePayload store0).2 janeLead rfl⟩
